import Mathlib

/-!
Shallow embedding of `sessionctx/variable/varsutil.go`: the session/system
variable registry and validation engine.  Pure Go string/strconv helpers are
translated to Lean functions; the mutable `SessionVars` state is threaded
explicitly.  Machine integers are modelled as `Nat`/`Int` with explicit range
checks where Go performs them (`strconv` bit sizes, `uint64` conversion).
-/

/-- Model of `strings.ToLower` / Go ASCII case mapping for one character.
Variable names and the token literals compared in the source are plain ASCII,
for which Go case mapping is exactly this function. -/
def lowerChar (c : Char) : Char :=
  if 65 ≤ c.toNat ∧ c.toNat ≤ 90 then Char.ofNat (c.toNat + 32) else c

/-- Model of `strings.ToLower` (ASCII range). -/
def lowerStr (s : String) : String :=
  ⟨s.data.map lowerChar⟩

/-- Model of `strings.EqualFold` restricted to ASCII simple case folding.
Every literal this file folds against (`DEFAULT`, `ON`, `OFF`, `ALL`,
`SYSTEM`, `OWN_GTID`, `ALL_GTIDS`) consists of ASCII letters whose Unicode
simple-fold orbit is exactly its two ASCII cases, so on those comparisons
this coincides with Go `strings.EqualFold` on all inputs. -/
def asciiEqualFold (a b : String) : Bool :=
  lowerStr a == lowerStr b

/-- Numeric value of an ASCII decimal digit, `none` for any other char. -/
def digitVal (c : Char) : Option Nat :=
  if 48 ≤ c.toNat ∧ c.toNat ≤ 57 then some (c.toNat - 48) else none

/-- Accumulate decimal digits; fails on the first non-digit
(Go `strconv` syntax error). -/
def digitsToNatAux : Nat → List Char → Option Nat
  | acc, [] => some acc
  | acc, c :: rest =>
    match digitVal c with
    | none => none
    | some d => digitsToNatAux (acc * 10 + d) rest

/-- Decimal value of a non-empty all-digit character list; `none` otherwise. -/
def digitsToNat : List Char → Option Nat
  | [] => none
  | l => digitsToNatAux 0 l

/-- Model of `strconv.ParseUint(s, 10, 64)`: digits only (no sign permitted),
`none` on syntax error or on overflow past `2^64 - 1` (Go returns `ErrRange`,
i.e. a non-nil error, for out-of-range input). -/
def goParseUint64 (s : String) : Option Nat :=
  match digitsToNat s.data with
  | none => none
  | some n => if n ≤ 18446744073709551615 then some n else none

/-- Model of `strconv.ParseInt(s, 10, 64)`: optional single sign, digits,
`none` on syntax error or when the value leaves the signed 64-bit range
(Go `ErrRange`). -/
def goParseInt64 (s : String) : Option Int :=
  match s.data with
  | [] => none
  | c :: rest =>
    let p : Bool × List Char :=
      if c == '+' then (false, rest)
      else if c == '-' then (true, rest)
      else (false, c :: rest)
    match digitsToNat p.2 with
    | none => none
    | some n =>
      let v : Int := if p.1 then -(n : Int) else (n : Int)
      if -9223372036854775808 ≤ v ∧ v ≤ 9223372036854775807 then some v else none

/-- Model of `strconv.Atoi` on a 64-bit platform: `ParseInt(s, 10, 0)` with
`int` = `int64`. -/
def goAtoi (s : String) : Option Int :=
  goParseInt64 s

/-- Error values produced by this fragment (`juju/errors` wrapped terror
values; `GenByArgs` arguments are kept as a list of strings). -/
inductive GoError where
  | unknownSystemVar (args : List String)
  | wrongTypeForVar (name : String)
  | wrongValueForVar (args : List String)
  | readOnly (name : String)
  | incorrectScope (name scope : String)
  | unknownTimeZone (s : String)
  | datumConv (msg : String)
  | globalAccessor (key : String)
  deriving DecidableEq, Repr

deriving instance DecidableEq for Except

/-- A diagnostic appended to the statement context by
`vars.StmtCtx.AppendWarning(ErrTruncatedWrongValue.GenByArgs(name, value))`. -/
inductive Warning where
  | truncatedWrongValue (name value : String)
  deriving DecidableEq, Repr

/-- Modelled from the spec: the catalog descriptor type `SysVar`
(defined in `sysvar.go`, not part of this fragment): scope, lowercase
name, and compiled-in default value. -/
structure SysVar where
  Scope : Nat
  Name : String
  Value : String
  deriving DecidableEq, Repr

/-- Modelled from the spec: scope flag `ScopeNone` (immutable constant). -/
def ScopeNone : Nat := 0

/-- Modelled from the spec: scope flag `ScopeGlobal`. -/
def ScopeGlobal : Nat := 1

/-- Modelled from the spec: scope flag `ScopeSession`. -/
def ScopeSession : Nat := 2

/-- The static catalog `SysVars` (a Go map), taken as a parameter: lowercase
name to descriptor, `none` when absent. -/
abbrev SysVarMap := String → Option SysVar

/-- Modelled from the spec: variable-name constant from `sysvar.go`. -/
def DefaultWeekFormat : String := "default_week_format"

/-- Modelled from the spec: variable-name constant from `sysvar.go`. -/
def DelayKeyWrite : String := "delay_key_write"

/-- Modelled from the spec: variable-name constant from `sysvar.go`. -/
def FlushTime : String := "flush_time"

/-- Modelled from the spec: variable-name constant from `sysvar.go`. -/
def GroupConcatMaxLen : String := "group_concat_max_len"

/-- Modelled from the spec: variable-name constant from `sysvar.go`. -/
def InteractiveTimeout : String := "interactive_timeout"

/-- Modelled from the spec: variable-name constant from `sysvar.go`. -/
def MaxConnections : String := "max_connections"

/-- Modelled from the spec: variable-name constant from `sysvar.go`. -/
def MaxSortLength : String := "max_sort_length"

/-- Modelled from the spec: variable-name constant from `sysvar.go`. -/
def MaxSpRecursionDepth : String := "max_sp_recursion_depth"

/-- Modelled from the spec: variable-name constant from `sysvar.go`. -/
def OldPasswords : String := "old_passwords"

/-- Modelled from the spec: variable-name constant from `sysvar.go`. -/
def MaxUserConnections : String := "max_user_connections"

/-- Modelled from the spec: variable-name constant from `sysvar.go`. -/
def SessionTrackGtids : String := "session_track_gtids"

/-- Modelled from the spec: variable-name constant from `sysvar.go`. -/
def TimeZone : String := "time_zone"

/-- Modelled from the spec: variable-name constant from `sysvar.go`. -/
def WarningCount : String := "warning_count"

/-- Modelled from the spec: variable-name constant from `sysvar.go`. -/
def ErrorCount : String := "error_count"

/-- Modelled from the spec: variable-name constant from `sysvar.go`. -/
def GeneralLog : String := "general_log"

/-- Modelled from the spec: variable-name constant from `sysvar.go`. -/
def AvoidTemporalUpgrade : String := "avoid_temporal_upgrade"

/-- Modelled from the spec: variable-name constant from `sysvar.go`. -/
def BigTables : String := "big_tables"

/-- Modelled from the spec: variable-name constant from `sysvar.go`. -/
def CheckProxyUsers : String := "check_proxy_users"

/-- Modelled from the spec: variable-name constant from `sysvar.go`. -/
def CoreFile : String := "core_file"

/-- Modelled from the spec: variable-name constant from `sysvar.go`. -/
def EndMakersInJSON : String := "end_markers_in_json"

/-- Modelled from the spec: variable-name constant from `sysvar.go`. -/
def SQLLogBin : String := "sql_log_bin"

/-- Modelled from the spec: variable-name constant from `sysvar.go`. -/
def OfflineMode : String := "offline_mode"

/-- Modelled from the spec: variable-name constant from `sysvar.go`. -/
def PseudoSlaveMode : String := "pseudo_slave_mode"

/-- Modelled from the spec: variable-name constant from `sysvar.go`. -/
def LowPriorityUpdates : String := "low_priority_updates"

/-- Modelled from the spec: variable-name constant from `sysvar.go`. -/
def SkipNameResolve : String := "skip_name_resolve"

/-- Modelled from the spec: variable-name constant from `sysvar.go`. -/
def ForeignKeyChecks : String := "foreign_key_checks"

/-- Modelled from the spec: variable-name constant from `sysvar.go`. -/
def SQLSafeUpdates : String := "sql_safe_updates"

/-- Modelled from the spec: variable-name constant from `sysvar.go`. -/
def AutocommitVar : String := "autocommit"

/-- Modelled from the spec: variable-name constant from `tidb_vars.go`. -/
def TiDBImportingData : String := "tidb_import_data"

/-- Modelled from the spec: variable-name constant from `tidb_vars.go`. -/
def TiDBSkipUTF8Check : String := "tidb_skip_utf8_check"

/-- Modelled from the spec: variable-name constant from `tidb_vars.go`. -/
def TiDBOptAggPushDown : String := "tidb_opt_agg_push_down"

/-- Modelled from the spec: variable-name constant from `tidb_vars.go`. -/
def TiDBOptInSubqUnFolding : String := "tidb_opt_insubquery_unfold"

/-- Modelled from the spec: variable-name constant from `tidb_vars.go`. -/
def TiDBEnableTablePartition : String := "tidb_enable_table_partition"

/-- Modelled from the spec: variable-name constant from `tidb_vars.go`. -/
def TiDBBatchInsert : String := "tidb_batch_insert"

/-- Modelled from the spec: variable-name constant from `tidb_vars.go`. -/
def TiDBDisableTxnAutoRetry : String := "tidb_disable_txn_auto_retry"

/-- Modelled from the spec: variable-name constant from `tidb_vars.go`. -/
def TiDBEnableStreaming : String := "tidb_enable_streaming"

/-- Modelled from the spec: variable-name constant from `tidb_vars.go`. -/
def TiDBBatchDelete : String := "tidb_batch_delete"

/-- Modelled from the spec: variable-name constant from `tidb_vars.go`. -/
def TiDBIndexLookupConcurrency : String := "tidb_index_lookup_concurrency"

/-- Modelled from the spec: variable-name constant from `tidb_vars.go`. -/
def TiDBIndexLookupJoinConcurrency : String := "tidb_index_lookup_join_concurrency"

/-- Modelled from the spec: variable-name constant from `tidb_vars.go`. -/
def TiDBIndexJoinBatchSize : String := "tidb_index_join_batch_size"

/-- Modelled from the spec: variable-name constant from `tidb_vars.go`. -/
def TiDBIndexLookupSize : String := "tidb_index_lookup_size"

/-- Modelled from the spec: variable-name constant from `tidb_vars.go`. -/
def TiDBHashJoinConcurrency : String := "tidb_hash_join_concurrency"

/-- Modelled from the spec: variable-name constant from `tidb_vars.go`. -/
def TiDBHashAggPartialConcurrency : String := "tidb_hashagg_partial_concurrency"

/-- Modelled from the spec: variable-name constant from `tidb_vars.go`. -/
def TiDBHashAggFinalConcurrency : String := "tidb_hashagg_final_concurrency"

/-- Modelled from the spec: variable-name constant from `tidb_vars.go`. -/
def TiDBDistSQLScanConcurrency : String := "tidb_distsql_scan_concurrency"

/-- Modelled from the spec: variable-name constant from `tidb_vars.go`. -/
def TiDBIndexSerialScanConcurrency : String := "tidb_index_serial_scan_concurrency"

/-- Modelled from the spec: variable-name constant from `tidb_vars.go`. -/
def TiDBDDLReorgWorkerCount : String := "tidb_ddl_reorg_worker_cnt"

/-- Modelled from the spec: variable-name constant from `tidb_vars.go`. -/
def TiDBBackoffLockFast : String := "tidb_backoff_lock_fast"

/-- Modelled from the spec: variable-name constant from `tidb_vars.go`. -/
def TiDBMaxChunkSize : String := "tidb_max_chunk_size"

/-- Modelled from the spec: variable-name constant from `tidb_vars.go`. -/
def TiDBDMLBatchSize : String := "tidb_dml_batch_size"

/-- Modelled from the spec: variable-name constant from `tidb_vars.go`. -/
def TiDBOptimizerSelectivityLevel : String := "tidb_optimizer_selectivity_level"

/-- Modelled from the spec: variable-name constant from `tidb_vars.go`. -/
def TiDBGeneralLog : String := "tidb_general_log"

/-- Modelled from the spec: variable-name constant from `tidb_vars.go`. -/
def TiDBProjectionConcurrency : String := "tidb_projection_concurrency"

/-- Modelled from the spec: variable-name constant from `tidb_vars.go`. -/
def TIDBMemQuotaQuery : String := "tidb_mem_quota_query"

/-- Modelled from the spec: variable-name constant from `tidb_vars.go`. -/
def TIDBMemQuotaHashJoin : String := "tidb_mem_quota_hashjoin"

/-- Modelled from the spec: variable-name constant from `tidb_vars.go`. -/
def TIDBMemQuotaMergeJoin : String := "tidb_mem_quota_mergejoin"

/-- Modelled from the spec: variable-name constant from `tidb_vars.go`. -/
def TIDBMemQuotaSort : String := "tidb_mem_quota_sort"

/-- Modelled from the spec: variable-name constant from `tidb_vars.go`. -/
def TIDBMemQuotaTopn : String := "tidb_mem_quota_topn"

/-- Modelled from the spec: variable-name constant from `tidb_vars.go`. -/
def TIDBMemQuotaIndexLookupReader : String := "tidb_mem_quota_indexlookupreader"

/-- Modelled from the spec: variable-name constant from `tidb_vars.go`. -/
def TIDBMemQuotaIndexLookupJoin : String := "tidb_mem_quota_indexlookupjoin"

/-- Modelled from the spec: variable-name constant from `tidb_vars.go`. -/
def TIDBMemQuotaNestedLoopApply : String := "tidb_mem_quota_nestedloopapply"

/-- Modelled from the spec: variable-name constant from `tidb_vars.go`. -/
def TiDBRetryLimit : String := "tidb_retry_limit"

/-- Modelled from the spec: variable-name constant from `tidb_vars.go`. -/
def TiDBCurrentTS : String := "tidb_current_ts"

/-- Modelled from the spec: variable-name constant from `tidb_vars.go`. -/
def TiDBConfig : String := "tidb_config"

/-- Modelled from the spec: `GetSysVar` from `sysvar.go` — case-insensitive
catalog lookup (lowercases, then consults the `SysVars` map). -/
def GetSysVar (SysVars : SysVarMap) (name : String) : Option SysVar :=
  SysVars (lowerStr name)

/-- Result of `ValidateSetSystemVar`: the normalized value or a hard error,
together with the list of warnings the call appends to the statement
context (`AppendWarning` is its only state effect; error branches append
none). -/
abbrev ValidateResult := Except GoError String × List Warning

/-- Direct translation of `ValidateSetSystemVar` (the per-name validation
switch).  The order of the tests follows the source.  In-range fallthrough
cases reach the final catch-all and return the value unchanged. -/
def ValidateSetSystemVar (SysVars : SysVarMap) (name value : String) : ValidateResult :=
  if asciiEqualFold value "DEFAULT" then
    match GetSysVar SysVars name with
    | some val => (.ok val.Value, [])
    | none => (.error (.unknownSystemVar [name]), [])
  else if name == DefaultWeekFormat then
    match goAtoi value with
    | none => (.error (.wrongTypeForVar name), [])
    | some val =>
      if val < 0 then (.ok "0", [.truncatedWrongValue name value])
      else if val > 7 then (.ok "7", [.truncatedWrongValue name value])
      else (.ok value, [])
  else if name == DelayKeyWrite then
    if asciiEqualFold value "ON" || value == "1" then (.ok "ON", [])
    else if asciiEqualFold value "OFF" || value == "0" then (.ok "OFF", [])
    else if asciiEqualFold value "ALL" || value == "2" then (.ok "ALL", [])
    else (.error (.wrongValueForVar [name, value]), [])
  else if name == FlushTime then
    match goAtoi value with
    | none => (.error (.wrongTypeForVar name), [])
    | some val =>
      if val < 0 then (.ok "0", [.truncatedWrongValue name value])
      else (.ok value, [])
  else if name == GroupConcatMaxLen then
    match goParseUint64 value with
    | none => (.error (.wrongTypeForVar name), [])
    | some val =>
      if val < 4 then (.ok "4", [.truncatedWrongValue name value])
      else if val > 18446744073709551615 then
        (.ok "18446744073709551615", [.truncatedWrongValue name value])
      else (.ok value, [])
  else if name == InteractiveTimeout then
    match goAtoi value with
    | none => (.error (.wrongTypeForVar name), [])
    | some val =>
      if val < 1 then (.ok "1", [.truncatedWrongValue name value])
      else (.ok value, [])
  else if name == MaxConnections then
    match goAtoi value with
    | none => (.error (.wrongTypeForVar name), [])
    | some val =>
      if val < 1 then (.ok "1", [.truncatedWrongValue name value])
      else if val > 100000 then (.ok "100000", [.truncatedWrongValue name value])
      else (.ok value, [])
  else if name == MaxSortLength then
    match goParseInt64 value with
    | none => (.error (.wrongTypeForVar name), [])
    | some val =>
      if val < 4 then (.ok "4", [.truncatedWrongValue name value])
      else if val > 8388608 then (.ok "8388608", [.truncatedWrongValue name value])
      else (.ok value, [])
  else if name == MaxSpRecursionDepth then
    match goParseInt64 value with
    | none => (.error (.wrongTypeForVar name), [])
    | some val =>
      if val < 0 then (.ok "0", [.truncatedWrongValue name value])
      else if val > 255 then (.ok "255", [.truncatedWrongValue name value])
      else (.ok value, [])
  else if name == OldPasswords then
    match goAtoi value with
    | none => (.error (.wrongTypeForVar name), [])
    | some val =>
      if val < 0 then (.ok "0", [.truncatedWrongValue name value])
      else if val > 2 then (.ok "2", [.truncatedWrongValue name value])
      else (.ok value, [])
  else if name == MaxUserConnections then
    match goParseUint64 value with
    | none => (.error (.wrongTypeForVar name), [])
    | some val =>
      if val < 0 then (.ok "0", [.truncatedWrongValue name value])
      else if val > 4294967295 then (.ok "4294967295", [.truncatedWrongValue name value])
      else (.ok value, [])
  else if name == SessionTrackGtids then
    if asciiEqualFold value "OFF" || value == "0" then (.ok "OFF", [])
    else if asciiEqualFold value "OWN_GTID" || value == "1" then (.ok "OWN_GTID", [])
    else if asciiEqualFold value "ALL_GTIDS" || value == "2" then (.ok "ALL_GTIDS", [])
    else (.error (.wrongValueForVar [name, value]), [])
  else if name == TimeZone then
    if asciiEqualFold value "SYSTEM" then (.ok "SYSTEM", [])
    else (.ok value, [])
  else if name == WarningCount || name == ErrorCount then
    (.error (.readOnly name), [])
  else if name == GeneralLog || name == AvoidTemporalUpgrade || name == BigTables ||
      name == CheckProxyUsers || name == CoreFile || name == EndMakersInJSON ||
      name == SQLLogBin || name == OfflineMode || name == PseudoSlaveMode ||
      name == LowPriorityUpdates || name == SkipNameResolve ||
      name == ForeignKeyChecks || name == SQLSafeUpdates then
    if asciiEqualFold value "ON" || value == "1" then (.ok "1", [])
    else if asciiEqualFold value "OFF" || value == "0" then (.ok "0", [])
    else (.error (.wrongValueForVar [name, value]), [])
  else if name == AutocommitVar || name == TiDBImportingData || name == TiDBSkipUTF8Check ||
      name == TiDBOptAggPushDown || name == TiDBOptInSubqUnFolding ||
      name == TiDBEnableTablePartition || name == TiDBBatchInsert ||
      name == TiDBDisableTxnAutoRetry || name == TiDBEnableStreaming ||
      name == TiDBBatchDelete then
    if asciiEqualFold value "ON" || value == "1" ||
        asciiEqualFold value "OFF" || value == "0" then (.ok value, [])
    else (.error (.wrongValueForVar [name, value]), [])
  else if name == TiDBIndexLookupConcurrency || name == TiDBIndexLookupJoinConcurrency ||
      name == TiDBIndexJoinBatchSize || name == TiDBIndexLookupSize ||
      name == TiDBHashJoinConcurrency || name == TiDBHashAggPartialConcurrency ||
      name == TiDBHashAggFinalConcurrency || name == TiDBDistSQLScanConcurrency ||
      name == TiDBIndexSerialScanConcurrency || name == TiDBDDLReorgWorkerCount ||
      name == TiDBBackoffLockFast || name == TiDBMaxChunkSize ||
      name == TiDBDMLBatchSize || name == TiDBOptimizerSelectivityLevel ||
      name == TiDBGeneralLog then
    match goAtoi value with
    | none => (.error (.wrongTypeForVar name), [])
    | some v =>
      if v ≤ 0 then (.error (.wrongValueForVar [name, value]), [])
      else (.ok value, [])
  else if name == TiDBProjectionConcurrency || name == TIDBMemQuotaQuery ||
      name == TIDBMemQuotaHashJoin || name == TIDBMemQuotaMergeJoin ||
      name == TIDBMemQuotaSort || name == TIDBMemQuotaTopn ||
      name == TIDBMemQuotaIndexLookupReader || name == TIDBMemQuotaIndexLookupJoin ||
      name == TIDBMemQuotaNestedLoopApply || name == TiDBRetryLimit then
    match goParseInt64 value with
    | none => (.error (.wrongValueForVar [name]), [])
    | some _ => (.ok value, [])
  else (.ok value, [])

/-- Lookup in an association list modelling a Go `map[string]string`. -/
def lookupStr (k : String) : List (String × String) → Option String
  | [] => none
  | (k2, v) :: rest => if k2 == k then some v else lookupStr k rest

/-- Insert/replace in an association list modelling `m[k] = v`. -/
def insertStr (k v : String) : List (String × String) → List (String × String)
  | [] => [(k, v)]
  | (k2, v2) :: rest =>
    if k2 == k then (k2, v) :: rest else (k2, v2) :: insertStr k v rest

/-- Removal from an association list modelling `delete(m, k)`. -/
def eraseStr (k : String) : List (String × String) → List (String × String)
  | [] => []
  | (k2, v2) :: rest =>
    if k2 == k then eraseStr k rest else (k2, v2) :: eraseStr k rest

/-- The mutable state these functions touch, threaded explicitly: the
session overlay `s.systems`, the statement-context warning list, the
transaction start timestamp and snapshot timestamp, plus — for stating
frame conditions — the backing store behind the `GlobalVarsAccessor`
bridge and the process-wide atomics/config read by the virtual
variables. -/
structure SessionVars where
  systems : List (String × String)
  warnings : List Warning
  globalStore : List (String × String)
  txnStartTS : Nat
  processGeneralLog : Nat
  configString : String
  snapshotTS : Nat
  deriving DecidableEq, Repr

/-- Append a batch of warnings to the statement context. -/
def addWarnings (vars : SessionVars) (ws : List Warning) : SessionVars :=
  { vars with warnings := vars.warnings ++ ws }

/-- Abstraction of `types.Datum` as consumed here: a SQL null, a value whose
`ToString` succeeds, or a value whose `ToString` fails (the conversion is
external to this fragment). -/
inductive Datum where
  | null
  | strVal (s : String)
  | badVal (msg : String)
  deriving DecidableEq, Repr

/-- Model of `value.IsNull()`. -/
def Datum.IsNull : Datum → Bool
  | .null => true
  | _ => false

/-- Model of `value.ToString()` (external `types` package): succeeds on a
string-convertible datum, fails otherwise. -/
def Datum.ToStr : Datum → Except GoError String
  | .null => .ok ""
  | .strVal s => .ok s
  | .badVal m => .error (.datumConv m)

/-- Modelled from the spec: `vars.deleteSystemVar(name)` (defined in
`session_vars.go`, not part of this fragment) — deletes the session
overlay entry for that name, no validation, no global effect, no error. -/
def deleteSystemVar (vars : SessionVars) (name : String) :
    Except GoError Unit × SessionVars :=
  (.ok (), { vars with systems := eraseStr name vars.systems })

/-- Modelled from the spec: `vars.SetSystemVar(name, sVal)` (defined in
`session_vars.go`, not part of this fragment) — on success writes the
normalized value into the session overlay only. -/
def SessionVars.SetSystemVar (vars : SessionVars) (name sVal : String) :
    Except GoError Unit × SessionVars :=
  (.ok (), { vars with systems := insertStr name sVal vars.systems })

/-- Direct translation of `SetSessionSystemVar`: lowercase the name, look it
up in the catalog (bare `UnknownSystemVar` when absent), delete the overlay
entry on a null datum, otherwise convert the datum to a string, validate,
and on success write the normalized value into the overlay. -/
def SetSessionSystemVar (SysVars : SysVarMap) (vars : SessionVars)
    (name : String) (value : Datum) : Except GoError Unit × SessionVars :=
  match SysVars (lowerStr name) with
  | none => (.error (.unknownSystemVar []), vars)
  | some _ =>
    if value.IsNull then deleteSystemVar vars (lowerStr name)
    else
      match value.ToStr with
      | .error e => (.error e, vars)
      | .ok sVal =>
        match ValidateSetSystemVar SysVars (lowerStr name) sVal with
        | (.error e, ws) => (.error e, addWarnings vars ws)
        | (.ok sVal2, ws) => (addWarnings vars ws).SetSystemVar (lowerStr name) sVal2

/-- Direct translation of `GetSessionOnlySysVars`: catalog lookup
(`UnknownVariable` when absent), the three virtual variables
(current transaction timestamp, general-log flag, rendered config),
then the session overlay, then the code default for variables whose
scope excludes global; `(_, false, none)` means fall through to the
global store.  Result triple mirrors the Go `(string, bool, error)`. -/
def GetSessionOnlySysVars (SysVars : SysVarMap) (s : SessionVars) (key : String) :
    String × Bool × Option GoError :=
  match SysVars key with
  | none => ("", false, some (.unknownSystemVar [key]))
  | some sysVar =>
    if sysVar.Name == TiDBCurrentTS then (toString s.txnStartTS, true, none)
    else if sysVar.Name == TiDBGeneralLog then (toString s.processGeneralLog, true, none)
    else if sysVar.Name == TiDBConfig then (s.configString, true, none)
    else
      match lookupStr key s.systems with
      | some sVal => (sVal, true, none)
      | none =>
        if sysVar.Scope &&& ScopeGlobal == 0 then (sysVar.Value, true, none)
        else ("", false, none)

/-- Modelled from the spec: the `GlobalVarsAccessor.GetGlobalSysVar` bridge
(external capability), reading the backing global store; a missing key is
surfaced as the bridge reporting an error. -/
def getGlobalSysVarBridge (s : SessionVars) (key : String) : Except GoError String :=
  match lookupStr key s.globalStore with
  | some v => .ok v
  | none => .error (.globalAccessor key)

/-- Direct translation of `GetSessionSystemVar`: lowercase the key, try the
session-only path, otherwise read the global store through the bridge and
cache the value into the session overlay. -/
def GetSessionSystemVar (SysVars : SysVarMap) (s : SessionVars) (key : String) :
    Except GoError String × SessionVars :=
  match GetSessionOnlySysVars SysVars s (lowerStr key) with
  | (_, _, some e) => (.error e, s)
  | (gVal, true, none) => (.ok gVal, s)
  | (_, false, none) =>
    match getGlobalSysVarBridge s (lowerStr key) with
    | .error e => (.error e, s)
    | .ok gVal =>
      (.ok gVal, { s with systems := insertStr (lowerStr key) gVal s.systems })

/-- Direct translation of `ValidateGetSystemVar`: existence check, then the
scope switch — `ScopeGlobal`/`ScopeNone` demand a global statement,
`ScopeSession` forbids one, any other scope value (both flags) passes. -/
def ValidateGetSystemVar (SysVars : SysVarMap) (name : String) (isGlobal : Bool) :
    Option GoError :=
  match SysVars name with
  | none => some (.unknownSystemVar [name])
  | some sysVar =>
    if sysVar.Scope == ScopeGlobal || sysVar.Scope == ScopeNone then
      if !isGlobal then some (.incorrectScope name "GLOBAL") else none
    else if sysVar.Scope == ScopeSession then
      if isGlobal then some (.incorrectScope name "SESSION") else none
    else none

/-- Direct translation of `SetDDLReorgWorkerCounter`: cap the requested
count at the compile-time maximum (`maxDDLReorgWorkerCount`, defined
outside this fragment and taken as a parameter), then store it.  The
stored atomic is returned as the new counter value. -/
def SetDDLReorgWorkerCounter (maxDDLReorgWorkerCount cnt : Int) : Int :=
  if cnt > maxDDLReorgWorkerCount then maxDDLReorgWorkerCount else cnt

/-- Direct translation of `GetDDLReorgWorkerCounter`: atomic load of the
stored counter. -/
def GetDDLReorgWorkerCounter (ddlReorgWorkerCounter : Int) : Int :=
  ddlReorgWorkerCounter

/-- `epochShiftBits` reserves the logical part of the timestamp. -/
def epochShiftBits : Nat := 18

/-- Direct translation of `GoTimeToTS` on the nanosecond Unix timestamp of
the Go time: `uint64((t.UnixNano() / 1e6) << epochShiftBits)`.  Go integer
division truncates toward zero (`Int.tdiv`); the signed left shift followed
by the `uint64` conversion is reduction of the product modulo `2^64`. -/
def GoTimeToTS (unixNano : Int) : Nat :=
  ((unixNano.tdiv 1000000 * 2 ^ epochShiftBits) % (2 ^ 64 : Int)).toNat

/-- Modelled from the spec: a concrete fragment of the static catalog
`SysVars` (populated in `sysvar.go`, not part of this fragment), used to
instantiate the catalog parameter in witnesses: scope, name, default. -/
def sysVarsModel : SysVarMap := fun name =>
  if name == DelayKeyWrite then some ⟨3, DelayKeyWrite, "ON"⟩
  else if name == DefaultWeekFormat then some ⟨3, DefaultWeekFormat, "0"⟩
  else if name == GroupConcatMaxLen then some ⟨3, GroupConcatMaxLen, "1024"⟩
  else if name == WarningCount then some ⟨ScopeSession, WarningCount, "0"⟩
  else if name == ErrorCount then some ⟨ScopeSession, ErrorCount, "0"⟩
  else if name == MaxConnections then some ⟨ScopeGlobal, MaxConnections, "151"⟩
  else if name == AutocommitVar then some ⟨3, AutocommitVar, "ON"⟩
  else if name == TiDBCurrentTS then some ⟨ScopeSession, TiDBCurrentTS, "0"⟩
  else none

/-- An empty session state for witnesses. -/
def sessionVars0 : SessionVars :=
  { systems := [], warnings := [], globalStore := [], txnStartTS := 0,
    processGeneralLog := 0, configString := "", snapshotTS := 0 }

/-! Helper lemmas shared by the claim theorems. -/

/-- A key just erased is no longer found. -/
theorem lookupStr_eraseStr_self (k : String) (l : List (String × String)) :
    lookupStr k (eraseStr k l) = none := by
  induction l with
  | nil => rfl
  | cons p rest ih =>
    obtain ⟨k2, v⟩ := p
    unfold eraseStr
    split
    · exact ih
    · rename_i hne
      unfold lookupStr
      rw [if_neg hne]
      exact ih

/-- Erasing one key leaves every other key unchanged. -/
theorem lookupStr_eraseStr_ne {k k2 : String} (hne : k2 ≠ k)
    (l : List (String × String)) : lookupStr k2 (eraseStr k l) = lookupStr k2 l := by
  induction l with
  | nil => rfl
  | cons p rest ih =>
    obtain ⟨a, v⟩ := p
    simp only [eraseStr]
    split
    · rename_i hak
      have ha : a = k := eq_of_beq hak
      have hk2 : (a == k2) = false := by
        subst ha
        simp only [beq_eq_false_iff_ne]
        exact fun h => hne h.symm
      rw [ih]
      simp [lookupStr, hk2]
    · simp only [lookupStr]
      split
      · rfl
      · exact ih

/-- Case folding agreement is equality of the lowered strings. -/
theorem asciiEqualFold_eq {a b : String} (h : asciiEqualFold a b = true) :
    lowerStr a = lowerStr b := by
  simpa [asciiEqualFold] using h

/-- A character that lowers to `d` is not a digit and not a sign. -/
theorem lowerChar_eq_d {c : Char} (h : lowerChar c = 'd') :
    digitVal c = none ∧ c ≠ '+' ∧ c ≠ '-' := by
  unfold lowerChar at h
  split at h
  · rename_i hr
    obtain ⟨hr1, hr2⟩ := hr
    refine ⟨?_, ?_, ?_⟩
    · unfold digitVal
      split
      · rename_i hd
        obtain ⟨hd1, hd2⟩ := hd
        omega
      · rfl
    · rintro rfl
      revert hr1
      decide
    · rintro rfl
      revert hr1
      decide
  · subst h
    exact ⟨by decide, by decide, by decide⟩

/-- A value that case-folds to the literal `DEFAULT` parses neither as a
signed nor as an unsigned integer (its first character is a letter). -/
theorem fold_DEFAULT_parse_none {value : String}
    (h : asciiEqualFold value "DEFAULT" = true) :
    goAtoi value = none ∧ goParseUint64 value = none := by
  have he : lowerStr value = lowerStr "DEFAULT" := asciiEqualFold_eq h
  have h1 : value.data.map lowerChar = "DEFAULT".data.map lowerChar :=
    congrArg String.data he
  rw [show "DEFAULT".data.map lowerChar = ['d', 'e', 'f', 'a', 'u', 'l', 't'] from
    by decide] at h1
  rcases hvd : value.data with _ | ⟨c, rest⟩
  · rw [hvd] at h1
    simp at h1
  · rw [hvd] at h1
    rw [List.map_cons] at h1
    injection h1 with hc _
    obtain ⟨hdig, hplus, hminus⟩ := lowerChar_eq_d hc
    have hp : (c == '+') = false := by simp [hplus]
    have hm : (c == '-') = false := by simp [hminus]
    constructor
    · unfold goAtoi goParseInt64
      rw [hvd]
      simp only [hp, hm, Bool.false_eq_true, if_false]
      simp [digitsToNat, digitsToNatAux, hdig]
    · unfold goParseUint64
      rw [hvd]
      simp [digitsToNat, digitsToNatAux, hdig]

/-- `ParseUint(_, 10, 64)` only returns values representable in 64 bits. -/
theorem goParseUint64_le {s : String} {n : Nat} (h : goParseUint64 s = some n) :
    n ≤ 18446744073709551615 := by
  unfold goParseUint64 at h
  split at h
  · exact absurd h (by simp)
  · split at h
    · rename_i m hm hle
      injection h with h2
      omega
    · exact absurd h (by simp)

/-- Branch lemma: the validator on `DelayKeyWrite` for a non-`DEFAULT` value
reduces to the strict three-token enumeration. -/
theorem validate_delayKeyWrite (S : SysVarMap) (value : String)
    (hd : asciiEqualFold value "DEFAULT" = false) :
    ValidateSetSystemVar S DelayKeyWrite value =
      (if asciiEqualFold value "ON" || value == "1" then (.ok "ON", [])
       else if asciiEqualFold value "OFF" || value == "0" then (.ok "OFF", [])
       else if asciiEqualFold value "ALL" || value == "2" then (.ok "ALL", [])
       else (.error (.wrongValueForVar [DelayKeyWrite, value]), [])) := by
  unfold ValidateSetSystemVar
  rw [if_neg (by simp [hd]), if_neg (by decide), if_pos (by decide)]

/-- Branch lemma: the validator on `DefaultWeekFormat` for a non-`DEFAULT`
value reduces to parse-then-clamp over `[0, 7]`. -/
theorem validate_defaultWeekFormat (S : SysVarMap) (value : String)
    (hd : asciiEqualFold value "DEFAULT" = false) :
    ValidateSetSystemVar S DefaultWeekFormat value =
      (match goAtoi value with
       | none => (.error (.wrongTypeForVar DefaultWeekFormat), [])
       | some val =>
         if val < 0 then (.ok "0", [.truncatedWrongValue DefaultWeekFormat value])
         else if val > 7 then (.ok "7", [.truncatedWrongValue DefaultWeekFormat value])
         else (.ok value, [])) := by
  unfold ValidateSetSystemVar
  rw [if_neg (by simp [hd]), if_pos (by decide)]

/-- Branch lemma: the validator on `GroupConcatMaxLen` for a non-`DEFAULT`
value reduces to unsigned parse-then-clamp. -/
theorem validate_groupConcatMaxLen (S : SysVarMap) (value : String)
    (hd : asciiEqualFold value "DEFAULT" = false) :
    ValidateSetSystemVar S GroupConcatMaxLen value =
      (match goParseUint64 value with
       | none => (.error (.wrongTypeForVar GroupConcatMaxLen), [])
       | some val =>
         if val < 4 then (.ok "4", [.truncatedWrongValue GroupConcatMaxLen value])
         else if val > 18446744073709551615 then
           (.ok "18446744073709551615", [.truncatedWrongValue GroupConcatMaxLen value])
         else (.ok value, [])) := by
  unfold ValidateSetSystemVar
  rw [if_neg (by simp [hd]), if_neg (by decide), if_neg (by decide),
    if_neg (by decide), if_pos (by decide)]

/-- Branch lemma: the validator on `WarningCount` for a non-`DEFAULT` value
reaches the read-only case. -/
theorem validate_warningCount (S : SysVarMap) (value : String)
    (hd : asciiEqualFold value "DEFAULT" = false) :
    ValidateSetSystemVar S WarningCount value = (.error (.readOnly WarningCount), []) := by
  unfold ValidateSetSystemVar
  rw [if_neg (by simp [hd]), if_neg (by decide), if_neg (by decide),
    if_neg (by decide), if_neg (by decide), if_neg (by decide), if_neg (by decide),
    if_neg (by decide), if_neg (by decide), if_neg (by decide), if_neg (by decide),
    if_neg (by decide), if_neg (by decide), if_pos (by decide)]

/-- Branch lemma: the validator on `ErrorCount` for a non-`DEFAULT` value
reaches the read-only case. -/
theorem validate_errorCount (S : SysVarMap) (value : String)
    (hd : asciiEqualFold value "DEFAULT" = false) :
    ValidateSetSystemVar S ErrorCount value = (.error (.readOnly ErrorCount), []) := by
  unfold ValidateSetSystemVar
  rw [if_neg (by simp [hd]), if_neg (by decide), if_neg (by decide),
    if_neg (by decide), if_neg (by decide), if_neg (by decide), if_neg (by decide),
    if_neg (by decide), if_neg (by decide), if_neg (by decide), if_neg (by decide),
    if_neg (by decide), if_neg (by decide), if_pos (by decide)]

/-- C4 counterexample: `GoTimeToTS` is not monotone over all pairs of times.
One millisecond before the Unix epoch the signed shifted value is negative,
and the `uint64` conversion wraps it above every post-epoch timestamp. -/
theorem GoTimeToTS_not_monotone_cex :
    (-1000000 : Int) < 1000000 ∧ ¬ GoTimeToTS (-1000000) ≤ GoTimeToTS 1000000 := by
  decide

/-- C4 (amended): `GoTimeToTS` is monotone for increasing times at or after
the Unix epoch (whose nanosecond count is representable in `int64`), and for
every time the low `epochShiftBits = 18` bits of the result are zero. -/
theorem GoTimeToTS_monotone_and_low_bits :
    (∀ n1 n2 : Int, 0 ≤ n1 → n1 ≤ n2 → n2 < 2 ^ 63 →
      GoTimeToTS n1 ≤ GoTimeToTS n2) ∧
    (∀ n : Int, GoTimeToTS n % 2 ^ 18 = 0) := by
  constructor
  · intro n1 n2 h0 h12 h2
    unfold GoTimeToTS epochShiftBits
    rw [Int.tdiv_eq_ediv h0 (by norm_num),
      Int.tdiv_eq_ediv (le_trans h0 h12) (by norm_num)]
    have hd0 : 0 ≤ n1 / 1000000 := Int.ediv_nonneg h0 (by norm_num)
    have hd12 : n1 / 1000000 ≤ n2 / 1000000 := Int.ediv_le_ediv (by norm_num) h12
    have hd0' : 0 ≤ n2 / 1000000 := le_trans hd0 hd12
    have hub : n2 / 1000000 ≤ 9223372036854 := by
      have h2' : n2 ≤ 9223372036854775807 := by
        have hpow : (2 : Int) ^ 63 = 9223372036854775808 := by norm_num
        omega
      calc n2 / 1000000 ≤ 9223372036854775807 / 1000000 :=
            Int.ediv_le_ediv (by norm_num) h2'
        _ = 9223372036854 := by norm_num
    have hp : (2 : Int) ^ 18 = 262144 := by norm_num
    have hlt2 : n2 / 1000000 * 2 ^ 18 < 2 ^ 64 := by
      rw [hp]
      have hm := mul_le_mul_of_nonneg_right hub (by norm_num : (0 : Int) ≤ 262144)
      have h64 : (2 : Int) ^ 64 = 18446744073709551616 := by norm_num
      omega
    have hmul : n1 / 1000000 * 2 ^ 18 ≤ n2 / 1000000 * 2 ^ 18 :=
      mul_le_mul_of_nonneg_right hd12 (by norm_num)
    have hlt1 : n1 / 1000000 * 2 ^ 18 < 2 ^ 64 := lt_of_le_of_lt hmul hlt2
    rw [Int.emod_eq_of_lt (mul_nonneg hd0 (by norm_num)) hlt1,
      Int.emod_eq_of_lt (mul_nonneg hd0' (by norm_num)) hlt2]
    exact Int.toNat_le_toNat hmul
  · intro n
    unfold GoTimeToTS epochShiftBits
    have hdvd : ((2 : Int) ^ 18) ∣ 2 ^ 64 := pow_dvd_pow 2 (by norm_num)
    have h1 : (n.tdiv 1000000 * 2 ^ 18) % 2 ^ 64 % 2 ^ 18 = 0 := by
      rw [Int.emod_emod_of_dvd _ hdvd, Int.mul_emod_left]
    have h0 : 0 ≤ (n.tdiv 1000000 * 2 ^ 18) % 2 ^ 64 :=
      Int.emod_nonneg _ (by norm_num)
    have h18 : (2 : Int) ^ 18 = 262144 := by norm_num
    have h18n : (2 : Nat) ^ 18 = 262144 := by norm_num
    rw [h18] at h1
    rw [h18n]
    omega

/-- C4 witness: the amended monotonicity at the epoch and one millisecond
after it, and the low-bits property at a pre-epoch time. -/
theorem GoTimeToTS_monotone_and_low_bits_witness :
    GoTimeToTS 0 ≤ GoTimeToTS 1000000 ∧ GoTimeToTS (-1000000) % 2 ^ 18 = 0 :=
  ⟨GoTimeToTS_monotone_and_low_bits.1 0 1000000 (by norm_num) (by norm_num)
      (by norm_num),
    GoTimeToTS_monotone_and_low_bits.2 (-1000000)⟩

/-- C10: immediately after `SetDDLReorgWorkerCounter cnt`, the value read by
`GetDDLReorgWorkerCounter` is `min cnt maxDDLReorgWorkerCount`: inputs above
the compile-time maximum are capped, zero and negative inputs are stored
unchanged, and no error or warning is produced (the functions are total). -/
theorem GetDDLReorgWorkerCounter_min (maxCount cnt : Int) :
    GetDDLReorgWorkerCounter (SetDDLReorgWorkerCounter maxCount cnt) =
      min cnt maxCount := by
  unfold GetDDLReorgWorkerCounter SetDDLReorgWorkerCounter
  rw [min_def]
  split_ifs <;> omega

/-- C7: for a cataloged global-only (or `ScopeNone`) variable the scope
check fails with `IncorrectScope` naming GLOBAL when `isGlobal` is false and
succeeds when it is true; for a session-only variable it fails naming
SESSION when `isGlobal` is true; an uncataloged name fails with
`UnknownVariable`. -/
theorem ValidateGetSystemVar_scope_check (S : SysVarMap) (name : String) :
    (∀ sv : SysVar, S name = some sv →
      sv.Scope = ScopeGlobal ∨ sv.Scope = ScopeNone →
      ValidateGetSystemVar S name false = some (.incorrectScope name "GLOBAL") ∧
      ValidateGetSystemVar S name true = none) ∧
    (∀ sv : SysVar, S name = some sv → sv.Scope = ScopeSession →
      ValidateGetSystemVar S name true = some (.incorrectScope name "SESSION")) ∧
    (S name = none → ∀ g : Bool,
      ValidateGetSystemVar S name g = some (.unknownSystemVar [name])) := by
  refine ⟨?_, ?_, ?_⟩
  · intro sv hsv hsc
    unfold ValidateGetSystemVar
    rw [hsv]
    rcases hsc with hsc | hsc <;> simp [hsc, ScopeGlobal, ScopeNone]
  · intro sv hsv hsc
    unfold ValidateGetSystemVar
    rw [hsv]
    simp [hsc, ScopeSession, ScopeGlobal, ScopeNone]
  · intro hnone g
    unfold ValidateGetSystemVar
    rw [hnone]

/-- C7 witness: a global-only variable, a session-only variable, and an
unknown name from the concrete catalog fragment. -/
theorem ValidateGetSystemVar_scope_check_witness :
    ValidateGetSystemVar sysVarsModel "max_connections" false =
      some (.incorrectScope "max_connections" "GLOBAL") ∧
    ValidateGetSystemVar sysVarsModel "max_connections" true = none ∧
    ValidateGetSystemVar sysVarsModel "warning_count" true =
      some (.incorrectScope "warning_count" "SESSION") ∧
    ValidateGetSystemVar sysVarsModel "no_such_var" true =
      some (.unknownSystemVar ["no_such_var"]) := by
  refine ⟨?_, ?_, ?_, ?_⟩
  · exact ((ValidateGetSystemVar_scope_check sysVarsModel "max_connections").1
      ⟨ScopeGlobal, MaxConnections, "151"⟩ (by decide) (Or.inl rfl)).1
  · exact ((ValidateGetSystemVar_scope_check sysVarsModel "max_connections").1
      ⟨ScopeGlobal, MaxConnections, "151"⟩ (by decide) (Or.inl rfl)).2
  · exact (ValidateGetSystemVar_scope_check sysVarsModel "warning_count").2.1
      ⟨ScopeSession, WarningCount, "0"⟩ (by decide) rfl
  · exact (ValidateGetSystemVar_scope_check sysVarsModel "no_such_var").2.2
      (by decide) true

/-- C8: a value that case-insensitively equals DEFAULT short-circuits the
validator — for a cataloged name (after lowercasing) it returns the
catalog's compiled-in default with no error and no warning, before any
per-name rule; for an uncataloged name it fails with `UnknownVariable`. -/
theorem ValidateSetSystemVar_default_passthrough (S : SysVarMap)
    (name value : String) (h : asciiEqualFold value "DEFAULT" = true) :
    (∀ sv : SysVar, S (lowerStr name) = some sv →
      ValidateSetSystemVar S name value = (.ok sv.Value, [])) ∧
    (S (lowerStr name) = none →
      ValidateSetSystemVar S name value =
        (.error (.unknownSystemVar [name]), [])) := by
  constructor
  · intro sv hsv
    unfold ValidateSetSystemVar GetSysVar
    rw [if_pos h, hsv]
  · intro hnone
    unfold ValidateSetSystemVar GetSysVar
    rw [if_pos h, hnone]

/-- C8 witness: mixed-case DEFAULT against a mixed-case cataloged name
returns its default; against an unknown name it errs. -/
theorem ValidateSetSystemVar_default_passthrough_witness :
    ValidateSetSystemVar sysVarsModel "Max_Connections" "DeFaUlT" =
      (.ok "151", []) ∧
    ValidateSetSystemVar sysVarsModel "no_such_var" "default" =
      (.error (.unknownSystemVar ["no_such_var"]), []) := by
  constructor
  · exact (ValidateSetSystemVar_default_passthrough sysVarsModel
      "Max_Connections" "DeFaUlT" (by decide)).1
      ⟨ScopeGlobal, MaxConnections, "151"⟩ (by decide)
  · exact (ValidateSetSystemVar_default_passthrough sysVarsModel
      "no_such_var" "default" (by decide)).2 (by decide)

/-- C1: whenever `SetSessionSystemVar` returns an error (unknown variable,
wrong type, wrong value, read-only, or datum-conversion failure), the
session overlay mapping and the global store are exactly as they were:
the only mutation before validation succeeds is the warning list. -/
theorem SetSessionSystemVar_error_frame (S : SysVarMap) (vars : SessionVars)
    (name : String) (value : Datum) (e : GoError) (vars' : SessionVars)
    (h : SetSessionSystemVar S vars name value = (.error e, vars')) :
    vars'.systems = vars.systems ∧ vars'.globalStore = vars.globalStore := by
  unfold SetSessionSystemVar at h
  split at h
  · cases h
    exact ⟨rfl, rfl⟩
  · split at h
    · simp [deleteSystemVar, Prod.mk.injEq] at h
    · split at h
      · cases h
        exact ⟨rfl, rfl⟩
      · split at h
        · cases h
          exact ⟨rfl, rfl⟩
        · simp [SessionVars.SetSystemVar, Prod.mk.injEq] at h

/-- C1 witness: a failing enum write leaves the overlay and global store of
the empty session untouched. -/
theorem SetSessionSystemVar_error_frame_witness :
    (SetSessionSystemVar sysVarsModel sessionVars0 "delay_key_write"
        (Datum.strVal "7")).2.systems = sessionVars0.systems ∧
    (SetSessionSystemVar sysVarsModel sessionVars0 "delay_key_write"
        (Datum.strVal "7")).2.globalStore = sessionVars0.globalStore :=
  SetSessionSystemVar_error_frame sysVarsModel sessionVars0 "delay_key_write"
    (Datum.strVal "7") (.wrongValueForVar [DelayKeyWrite, "7"]) _ (by decide)

/-- C3 counterexample: the claim says a set of the read-only warning-count
counter fails with `ReadOnly` for any input value whatsoever, but the input
DEFAULT is intercepted first and returns the catalog default with no error. -/
theorem readOnly_default_cex :
    ValidateSetSystemVar sysVarsModel WarningCount "DEFAULT" = (.ok "0", []) := by
  decide

/-- C3 (amended): for every input value that is not, case-insensitively, the
literal DEFAULT, setting the warning-count or error-count counters fails
with `ReadOnly`. -/
theorem readOnly_counters_amended (S : SysVarMap) (value : String)
    (hd : asciiEqualFold value "DEFAULT" = false) :
    ValidateSetSystemVar S WarningCount value =
      (.error (.readOnly WarningCount), []) ∧
    ValidateSetSystemVar S ErrorCount value =
      (.error (.readOnly ErrorCount), []) :=
  ⟨validate_warningCount S value hd, validate_errorCount S value hd⟩

/-- C3 witness: a concrete non-DEFAULT value fails with `ReadOnly` on both
counters. -/
theorem readOnly_counters_amended_witness :
    ValidateSetSystemVar sysVarsModel WarningCount "10" =
      (.error (.readOnly WarningCount), []) ∧
    ValidateSetSystemVar sysVarsModel ErrorCount "10" =
      (.error (.readOnly ErrorCount), []) :=
  readOnly_counters_amended sysVarsModel "10" (by decide)

/-- A value folding to one literal cannot fold to a literal with a different
lowering. -/
theorem asciiEqualFold_ne_of_lower {value lit lit2 : String}
    (h : asciiEqualFold value lit = true) (hne : lowerStr lit ≠ lowerStr lit2) :
    asciiEqualFold value lit2 = false := by
  have he := asciiEqualFold_eq h
  unfold asciiEqualFold
  rw [he]
  exact beq_eq_false_iff_ne.mpr hne

/-- A value folding to a literal differs from any string that does not. -/
theorem ne_of_fold_ne {value lit v2 : String}
    (h : asciiEqualFold value lit = true) (h2 : asciiEqualFold v2 lit = false) :
    value ≠ v2 := by
  intro he
  rw [he] at h
  rw [h] at h2
  simp at h2

/-- C9 counterexample: the input `default` is not a casing of ON/OFF/ALL nor
a digit alias, yet setting the delay-key-write variable to it does not fail
with `WrongValueForVar` — the DEFAULT passthrough returns the catalog
default first. -/
theorem delayKeyWrite_default_cex :
    asciiEqualFold "default" "ON" = false ∧
    asciiEqualFold "default" "OFF" = false ∧
    asciiEqualFold "default" "ALL" = false ∧
    ValidateSetSystemVar sysVarsModel DelayKeyWrite "default" = (.ok "ON", []) := by
  decide

/-- C9 (amended): for the delay-key-write variable and any value that is not
case-insensitively DEFAULT, any casing of ON or the digit 1 maps to ON, any
casing of OFF or 0 to OFF, any casing of ALL or 2 to ALL, and every other
value fails with `WrongValueForVar`. -/
theorem delayKeyWrite_enum_amended (S : SysVarMap) (value : String)
    (hd : asciiEqualFold value "DEFAULT" = false) :
    (asciiEqualFold value "ON" = true ∨ value = "1" →
      ValidateSetSystemVar S DelayKeyWrite value = (.ok "ON", [])) ∧
    (asciiEqualFold value "OFF" = true ∨ value = "0" →
      ValidateSetSystemVar S DelayKeyWrite value = (.ok "OFF", [])) ∧
    (asciiEqualFold value "ALL" = true ∨ value = "2" →
      ValidateSetSystemVar S DelayKeyWrite value = (.ok "ALL", [])) ∧
    (asciiEqualFold value "ON" = false → value ≠ "1" →
      asciiEqualFold value "OFF" = false → value ≠ "0" →
      asciiEqualFold value "ALL" = false → value ≠ "2" →
      ValidateSetSystemVar S DelayKeyWrite value =
        (.error (.wrongValueForVar [DelayKeyWrite, value]), [])) := by
  refine ⟨?_, ?_, ?_, ?_⟩
  · intro hON
    rw [validate_delayKeyWrite S value hd]
    have hcond : (asciiEqualFold value "ON" || value == "1") = true := by
      rcases hON with h1 | h1 <;> simp [h1]
    rw [if_pos hcond]
  · intro hOFF
    rw [validate_delayKeyWrite S value hd]
    have hon : (asciiEqualFold value "ON" || value == "1") = false := by
      rcases hOFF with h1 | h1
      · have hOn : asciiEqualFold value "ON" = false :=
          asciiEqualFold_ne_of_lower h1 (by decide)
        have hne1 : value ≠ "1" := ne_of_fold_ne h1 (by decide)
        simp [hOn, beq_eq_false_iff_ne.mpr hne1]
      · subst h1
        decide
    rw [if_neg (by simp [hon])]
    have hcond : (asciiEqualFold value "OFF" || value == "0") = true := by
      rcases hOFF with h1 | h1 <;> simp [h1]
    rw [if_pos hcond]
  · intro hALL
    rw [validate_delayKeyWrite S value hd]
    have hon : (asciiEqualFold value "ON" || value == "1") = false := by
      rcases hALL with h1 | h1
      · have hOn : asciiEqualFold value "ON" = false :=
          asciiEqualFold_ne_of_lower h1 (by decide)
        have hne1 : value ≠ "1" := ne_of_fold_ne h1 (by decide)
        simp [hOn, beq_eq_false_iff_ne.mpr hne1]
      · subst h1
        decide
    have hoff : (asciiEqualFold value "OFF" || value == "0") = false := by
      rcases hALL with h1 | h1
      · have hOff : asciiEqualFold value "OFF" = false :=
          asciiEqualFold_ne_of_lower h1 (by decide)
        have hne0 : value ≠ "0" := ne_of_fold_ne h1 (by decide)
        simp [hOff, beq_eq_false_iff_ne.mpr hne0]
      · subst h1
        decide
    rw [if_neg (by simp [hon]), if_neg (by simp [hoff])]
    have hcond : (asciiEqualFold value "ALL" || value == "2") = true := by
      rcases hALL with h1 | h1 <;> simp [h1]
    rw [if_pos hcond]
  · intro hON hne1 hOFF hne0 hALL hne2
    rw [validate_delayKeyWrite S value hd]
    rw [if_neg (by simp [hON, beq_eq_false_iff_ne.mpr hne1]),
      if_neg (by simp [hOFF, beq_eq_false_iff_ne.mpr hne0]),
      if_neg (by simp [hALL, beq_eq_false_iff_ne.mpr hne2])]

/-- C9 witness: a mixed-case ALL normalizes to ALL, and 7 fails with
`WrongValueForVar`. -/
theorem delayKeyWrite_enum_amended_witness :
    ValidateSetSystemVar sysVarsModel DelayKeyWrite "aLl" = (.ok "ALL", []) ∧
    ValidateSetSystemVar sysVarsModel DelayKeyWrite "7" =
      (.error (.wrongValueForVar [DelayKeyWrite, "7"]), []) := by
  constructor
  · exact (delayKeyWrite_enum_amended sysVarsModel "aLl" (by decide)).2.2.1
      (Or.inl (by decide))
  · exact (delayKeyWrite_enum_amended sysVarsModel "7" (by decide)).2.2.2
      (by decide) (by decide) (by decide) (by decide) (by decide) (by decide)

/-- C2 counterexample: `18446744073709551616` is an out-of-range numeric
input (one above the upper bound), yet the validator does not clamp it to
`18446744073709551615` — `ParseUint` reports a range error first, so the
call fails with `WrongTypeForVar`. -/
theorem groupConcatMaxLen_overflow_cex :
    ValidateSetSystemVar sysVarsModel GroupConcatMaxLen "18446744073709551616" =
      (.error (.wrongTypeForVar GroupConcatMaxLen), []) := by
  decide

/-- C2 (amended): for the group-concat maximum-length variable, an input
parsing as `uint64` below 4 is clamped to "4" with exactly one
`TruncatedWrongValue` warning; an input parsing as `uint64` at 4 or above is
returned unchanged (the upper clamp branch is unreachable because every
parsed value fits in 64 bits); a non-DEFAULT input that does not parse as
`uint64` — non-numeric, negative, or at least `2^64` — fails with
`WrongTypeForVar`. -/
theorem groupConcatMaxLen_clamp_amended (S : SysVarMap) (value : String) :
    (∀ n : Nat, goParseUint64 value = some n → n < 4 →
      ValidateSetSystemVar S GroupConcatMaxLen value =
        (.ok "4", [.truncatedWrongValue GroupConcatMaxLen value])) ∧
    (∀ n : Nat, goParseUint64 value = some n → 4 ≤ n →
      ValidateSetSystemVar S GroupConcatMaxLen value = (.ok value, [])) ∧
    (goParseUint64 value = none → asciiEqualFold value "DEFAULT" = false →
      ValidateSetSystemVar S GroupConcatMaxLen value =
        (.error (.wrongTypeForVar GroupConcatMaxLen), [])) := by
  have hdOf : ∀ n : Nat, goParseUint64 value = some n →
      asciiEqualFold value "DEFAULT" = false := by
    intro n hp
    cases hfold : asciiEqualFold value "DEFAULT"
    · rfl
    · rw [(fold_DEFAULT_parse_none hfold).2] at hp
      exact absurd hp (by simp)
  refine ⟨?_, ?_, ?_⟩
  · intro n hp hlt
    simp only [validate_groupConcatMaxLen S value (hdOf n hp), hp]
    rw [if_pos hlt]
  · intro n hp hle
    simp only [validate_groupConcatMaxLen S value (hdOf n hp), hp]
    rw [if_neg (by omega),
      if_neg (by have := goParseUint64_le hp; omega)]
  · intro hp hd
    simp only [validate_groupConcatMaxLen S value hd, hp]

/-- C2 witness: 2 clamps to "4" with one warning, 1024 passes through, and
the non-parsing "-1" fails with `WrongTypeForVar`. -/
theorem groupConcatMaxLen_clamp_amended_witness :
    ValidateSetSystemVar sysVarsModel GroupConcatMaxLen "2" =
      (.ok "4", [.truncatedWrongValue GroupConcatMaxLen "2"]) ∧
    ValidateSetSystemVar sysVarsModel GroupConcatMaxLen "1024" =
      (.ok "1024", []) ∧
    ValidateSetSystemVar sysVarsModel GroupConcatMaxLen "-1" =
      (.error (.wrongTypeForVar GroupConcatMaxLen), []) :=
  ⟨(groupConcatMaxLen_clamp_amended sysVarsModel "2").1 2 (by decide) (by decide),
   (groupConcatMaxLen_clamp_amended sysVarsModel "1024").2.1 1024 (by decide)
     (by decide),
   (groupConcatMaxLen_clamp_amended sysVarsModel "-1").2.2 (by decide) (by decide)⟩

/-- C5 counterexample: `-9223372036854775809` is an integer string below 0,
but it is outside the signed 64-bit range, so `Atoi` fails and the validator
returns `WrongTypeForVar` instead of clamping to "0" with a warning. -/
theorem defaultWeekFormat_overflow_cex :
    ValidateSetSystemVar sysVarsModel DefaultWeekFormat "-9223372036854775809" =
      (.error (.wrongTypeForVar DefaultWeekFormat), []) := by
  decide

/-- C5 (amended): for the default-week-format variable, an input parsing as
a signed 64-bit integer below 0 yields "0" and appends exactly one
`TruncatedWrongValue` warning, and one above 7 yields "7" with exactly one
warning; integer strings outside the 64-bit range instead fail with
`WrongTypeForVar`. -/
theorem defaultWeekFormat_clamp_amended (S : SysVarMap) (value : String) :
    (∀ v : Int, goAtoi value = some v → v < 0 →
      ValidateSetSystemVar S DefaultWeekFormat value =
        (.ok "0", [.truncatedWrongValue DefaultWeekFormat value])) ∧
    (∀ v : Int, goAtoi value = some v → 7 < v →
      ValidateSetSystemVar S DefaultWeekFormat value =
        (.ok "7", [.truncatedWrongValue DefaultWeekFormat value])) := by
  have hdOf : ∀ v : Int, goAtoi value = some v →
      asciiEqualFold value "DEFAULT" = false := by
    intro v hp
    cases hfold : asciiEqualFold value "DEFAULT"
    · rfl
    · rw [(fold_DEFAULT_parse_none hfold).1] at hp
      exact absurd hp (by simp)
  constructor
  · intro v hp hlt
    simp only [validate_defaultWeekFormat S value (hdOf v hp), hp]
    rw [if_pos hlt]
  · intro v hp hlt
    simp only [validate_defaultWeekFormat S value (hdOf v hp), hp]
    rw [if_neg (by omega), if_pos hlt]

/-- C5 witness: "-5" yields "0" plus one warning; "99" yields "7" plus one
warning. -/
theorem defaultWeekFormat_clamp_amended_witness :
    ValidateSetSystemVar sysVarsModel DefaultWeekFormat "-5" =
      (.ok "0", [.truncatedWrongValue DefaultWeekFormat "-5"]) ∧
    ValidateSetSystemVar sysVarsModel DefaultWeekFormat "99" =
      (.ok "7", [.truncatedWrongValue DefaultWeekFormat "99"]) :=
  ⟨(defaultWeekFormat_clamp_amended sysVarsModel "-5").1 (-5) (by decide)
      (by decide),
   (defaultWeekFormat_clamp_amended sysVarsModel "99").2 99 (by decide)
      (by decide)⟩

/-- C6 (spec-modelled overlay write/delete): setting a cataloged variable to
a null datum deletes exactly the session overlay entry for the lowercased
name — no validation error, no warning, no other overlay entry and never
the global store — and a subsequent get for that name resolves through the
code-default path (non-global scope) or the global-store path (global
scope) rather than erroring with `UnknownVariable`. -/
theorem SetSessionSystemVar_null_deletes (S : SysVarMap) (vars : SessionVars)
    (name : String) (sv : SysVar) (hS : S (lowerStr name) = some sv) :
    SetSessionSystemVar S vars name .null =
      (.ok (), { vars with systems := eraseStr (lowerStr name) vars.systems }) ∧
    lookupStr (lowerStr name) (eraseStr (lowerStr name) vars.systems) = none ∧
    (∀ k, k ≠ lowerStr name →
      lookupStr k (eraseStr (lowerStr name) vars.systems) =
        lookupStr k vars.systems) ∧
    (sv.Name ≠ TiDBCurrentTS → sv.Name ≠ TiDBGeneralLog → sv.Name ≠ TiDBConfig →
      sv.Scope &&& ScopeGlobal = 0 →
      (GetSessionSystemVar S
          { vars with systems := eraseStr (lowerStr name) vars.systems }
          name).1 = .ok sv.Value) ∧
    (sv.Name ≠ TiDBCurrentTS → sv.Name ≠ TiDBGeneralLog → sv.Name ≠ TiDBConfig →
      sv.Scope &&& ScopeGlobal ≠ 0 → ∀ gv,
      lookupStr (lowerStr name) vars.globalStore = some gv →
      (GetSessionSystemVar S
          { vars with systems := eraseStr (lowerStr name) vars.systems }
          name).1 = .ok gv) := by
  refine ⟨?_, lookupStr_eraseStr_self _ _, fun k hk => lookupStr_eraseStr_ne hk _,
    ?_, ?_⟩
  · unfold SetSessionSystemVar
    rw [hS]
    rfl
  · intro h1 h2 h3 h4
    have e1 : (sv.Name == TiDBCurrentTS) = false := beq_eq_false_iff_ne.mpr h1
    have e2 : (sv.Name == TiDBGeneralLog) = false := beq_eq_false_iff_ne.mpr h2
    have e3 : (sv.Name == TiDBConfig) = false := beq_eq_false_iff_ne.mpr h3
    simp [GetSessionSystemVar, GetSessionOnlySysVars, hS, e1, e2, e3,
      lookupStr_eraseStr_self, h4]
  · intro h1 h2 h3 h4 gv hgv
    have e1 : (sv.Name == TiDBCurrentTS) = false := beq_eq_false_iff_ne.mpr h1
    have e2 : (sv.Name == TiDBGeneralLog) = false := beq_eq_false_iff_ne.mpr h2
    have e3 : (sv.Name == TiDBConfig) = false := beq_eq_false_iff_ne.mpr h3
    have e4 : (sv.Scope &&& ScopeGlobal == 0) = false := by
      simp [h4]
    simp [GetSessionSystemVar, GetSessionOnlySysVars, getGlobalSysVarBridge,
      hS, e1, e2, e3, e4, lookupStr_eraseStr_self, hgv]

/-- C6 witness: deleting the cached warning-count entry via a null set on
the mixed-case name, then reading it back through the code-default path. -/
theorem SetSessionSystemVar_null_deletes_witness :
    SetSessionSystemVar sysVarsModel
        { sessionVars0 with
          systems := [("warning_count", "3"), ("autocommit", "ON")] }
        "WARNING_COUNT" Datum.null =
      (.ok (),
        { sessionVars0 with
          systems := eraseStr (lowerStr "WARNING_COUNT")
            [("warning_count", "3"), ("autocommit", "ON")] }) ∧
    (GetSessionSystemVar sysVarsModel
        { sessionVars0 with
          systems := eraseStr (lowerStr "WARNING_COUNT")
            [("warning_count", "3"), ("autocommit", "ON")] }
        "WARNING_COUNT").1 = .ok "0" := by
  have h := SetSessionSystemVar_null_deletes sysVarsModel
    { sessionVars0 with
      systems := [("warning_count", "3"), ("autocommit", "ON")] }
    "WARNING_COUNT" ⟨ScopeSession, WarningCount, "0"⟩ (by decide)
  exact ⟨h.1, h.2.2.2.1 (by decide) (by decide) (by decide) (by decide)⟩
